import Mathlib

/-!
Verification of the scheduled multi-platform publishing pipeline of the
marketing-agency showcase application.

The definitions below are a shallow embedding of the dispatcher and of the
platform-adapter formatting helpers:

* data rows mirror the Drizzle schema in `drizzle/schema.ts`
  (`generated_posts`, `social_media_accounts`, `ai_agent_config`,
  `posting_logs`); columns the dispatcher never reads
  (`createdAt`, `updatedAt`, `mediaType`, `mediaPrompt`, account label and
  token columns other than the ones consumed) are omitted;
* `findSelectedAccount`, `publishPost` and the due-post query mirror the
  scheduled-posting service (second half of
  `server/services/linkedinService.ts`);
* `formatLinkedInPost` mirrors the LinkedIn service formatter and
  `formatInstagramCaption` mirrors the Meta service formatter.

Text manipulated by JavaScript string operations (`length`, `substring`,
`join`) is modelled as `List Char`, matching the code-unit view of the
source.  Timestamps are natural numbers.  The outbound HTTP calls of the
platform adapters are abstracted into an oracle giving, per attempt index,
either a platform post id (adapter success) or an error message (thrown
transport error or adapter-reported non-success; the dispatcher converts
the latter into a throw itself, so both land in the same catch).
-/

namespace Showcase

/-- The text type of the embedding: a JavaScript string as its list of
code units. -/
abbrev Text := List Char

/-- Platform enum of the schema (`generated_posts.platform`,
`social_media_accounts.platform`). -/
inductive Platform
  | linkedin
  | facebook
  | twitter
  | instagram
deriving DecidableEq

/-- String rendering of a platform, as interpolated into the service's
messages. -/
def Platform.name : Platform → String
  | .linkedin => "linkedin"
  | .facebook => "facebook"
  | .twitter => "twitter"
  | .instagram => "instagram"

/-- Status enum of `generated_posts.status`. -/
inductive PostStatus
  | draft
  | scheduled
  | published
  | failed
deriving DecidableEq

/-- Status enum of `posting_logs.status`. -/
inductive LogStatus
  | success
  | failed
  | pending
deriving DecidableEq

/-- A row of `generated_posts` (a Draft).  `hashtags` holds the serialized
hashtag list exactly as stored; the adapters are abstracted before it is
consumed, so it stays unparsed here. -/
structure Post where
  id : Nat
  userId : Nat
  platform : Platform
  title : String
  content : String
  agentId : Option Nat
  hashtags : Option String
  status : PostStatus
  mediaUrl : Option String
  externalPostId : Option String
  scheduledAt : Option Nat
  publishedAt : Option Nat
deriving DecidableEq

/-- A row of `social_media_accounts` (an Account). -/
structure Account where
  id : Nat
  userId : Nat
  platform : Platform
  accountName : String
  accessToken : String
  refreshToken : Option String
  accountId : String
  isActive : Bool
deriving DecidableEq

/-- A row of `ai_agent_config`.  `selectedAccounts` is the JSON object
mapping platform keys to account ids (`null` column modelled as `none`;
the object itself as an association list). -/
structure AgentConfig where
  id : Nat
  userId : Nat
  isActive : Bool
  selectedAccounts : Option (List (Platform × Nat))
deriving DecidableEq

/-- A row of `posting_logs` (a Publish Log Entry). -/
structure PostingLog where
  userId : Nat
  postId : Nat
  platform : Platform
  status : LogStatus
  platformPostId : Option String
  errorMessage : String
  attemptedAt : Nat
deriving DecidableEq

/-- The database state seen by the dispatcher. -/
structure DB where
  posts : List Post
  accounts : List Account
  agentConfigs : List AgentConfig
  logs : List PostingLog

/-- `db.select().from(generatedPosts).where(eq(generatedPosts.id, postId)).limit(1)`
followed by taking element `[0]`. -/
def DB.findPost (db : DB) (postId : Nat) : Option Post :=
  (db.posts.filter fun p => p.id == postId).head?

/-- `db.select().from(aiAgentConfig).where(eq(aiAgentConfig.id, agentId)).limit(1)`
followed by taking element `[0]`. -/
def DB.findAgentConfig (db : DB) (agentId : Nat) : Option AgentConfig :=
  (db.agentConfigs.filter fun c => c.id == agentId).head?

/-- The step-1 account query of `findSelectedAccount`: accounts with
`id = selectedAccountId` and `isActive = true`, limit 1.  Note that this
query does not constrain `userId`. -/
def DB.findActiveAccountById (db : DB) (selectedAccountId : Nat) : Option Account :=
  (db.accounts.filter fun a => a.id == selectedAccountId && a.isActive).head?

/-- The step-2 fallback query of `findSelectedAccount`: first account with
matching `userId`, `platform` and `isActive = true`. -/
def DB.firstActiveAccount (db : DB) (userId : Nat) (platform : Platform) : Option Account :=
  (db.accounts.filter fun a =>
    a.userId == userId && a.platform == platform && a.isActive).head?

/-- Reading `mappings[post.platform]` from the parsed `selectedAccounts`
JSON object. -/
def lookupSelected (mappings : List (Platform × Nat)) (platform : Platform) : Option Nat :=
  (mappings.find? fun e => e.1 == platform).map (·.2)

/-- Step 1 of `findSelectedAccount`: the agent-configuration branch.  The
`selectedAccountId = 0` case mirrors the JavaScript truthiness guard
`if (selectedAccountId)` (0 is falsy and skips the lookup). -/
def selectedAccountStep1 (db : DB) (post : Post) : Option Account :=
  match post.agentId with
  | none => none
  | some agentId =>
    match db.findAgentConfig agentId with
    | none => none
    | some config =>
      match config.selectedAccounts with
      | none => none
      | some mappings =>
        match lookupSelected mappings post.platform with
        | none => none
        | some selectedAccountId =>
          if selectedAccountId = 0 then none
          else db.findActiveAccountById selectedAccountId

/-- `findSelectedAccount(db, post)`: the account-resolution policy.  If the
agent-configuration branch finds an active account it is returned
(`if (accounts[0]) return accounts[0]`), otherwise the first active
account for the post's user and platform. -/
def findSelectedAccount (db : DB) (post : Post) : Option Account :=
  match selectedAccountStep1 db post with
  | some account => some account
  | none => db.firstActiveAccount post.userId post.platform

/-- SQL `lte(scheduledAt, now)` on the nullable `scheduledAt` column: a
NULL never satisfies the comparison. -/
def scheduledAtLte (scheduledAt : Option Nat) (now : Nat) : Bool :=
  match scheduledAt with
  | some t => t ≤ now
  | none => false

/-- The due-post query of `publishDuePosts`: posts with status
`scheduled` and `scheduledAt <= now`. -/
def findDuePosts (db : DB) (now : Nat) : List Post :=
  db.posts.filter fun p => p.status == PostStatus.scheduled && scheduledAtLte p.scheduledAt now

/-- `"\n\n"` as appended between title, body and hashtag block. -/
def newline2 : Text := ['\n', '\n']

/-- `hashtags.join(" ")`. -/
def joinSpace (hashtags : List Text) : Text :=
  List.intercalate [' '] hashtags

/-- The three-character ellipsis marker `"..."` appended by the Instagram
truncation. -/
def ellipsis : Text := ['.', '.', '.']

/-- The normalized LinkedIn post request (`LinkedInPostRequest`). -/
structure LinkedInPostRequest where
  content : Text
  title : Option Text := none
  hashtags : Option (List Text) := none
  imageUrl : Option Text := none
deriving DecidableEq

/-- `formatLinkedInPost(request)`: title block, body, then space-joined
hashtags after a blank line.  The source applies no length limit here. -/
def formatLinkedInPost (request : LinkedInPostRequest) : Text :=
  let content : Text := []
  let content := match request.title with
    | some t => content ++ t ++ newline2
    | none => content
  let content := content ++ request.content
  let content := match request.hashtags with
    | some hs => if 0 < hs.length then content ++ newline2 ++ joinSpace hs else content
    | none => content
  content

/-- The normalized Instagram post request (`InstagramPostRequest`; the
carousel and video fields are not involved in caption formatting). -/
structure InstagramPostRequest where
  content : Text
  hashtags : Option (List Text) := none
  imageUrl : Option Text := none
deriving DecidableEq

/-- The caption built by `formatInstagramCaption` before the length check:
body, then space-joined hashtags after a blank line. -/
def instagramCaptionRaw (request : InstagramPostRequest) : Text :=
  let caption := request.content
  match request.hashtags with
  | some hs => if 0 < hs.length then caption ++ newline2 ++ joinSpace hs else caption
  | none => caption

/-- `formatInstagramCaption(request)`: the raw caption, truncated to 2197
code units plus `"..."` when it exceeds 2200. -/
def formatInstagramCaption (request : InstagramPostRequest) : Text :=
  let caption := instagramCaptionRaw request
  if 2200 < caption.length then caption.take 2197 ++ ellipsis else caption

/-- Outcome of one adapter invocation, abstracting the outbound HTTP call:
`ok id` is a `success: true` service result carrying the platform post id;
`err msg` covers both a thrown transport error and a `success: false`
service result (the dispatcher turns the latter into a throw with the
result's message, so both reach the same catch block). -/
inductive AdapterOutcome
  | ok (id : String)
  | err (msg : String)
deriving DecidableEq

/-- `serviceResult` check of `publishPost`: a successful call yields the
platform post id, a failed one throws the error message. -/
def adapterResult : AdapterOutcome → Except String String
  | .ok id => .ok id
  | .err msg => .error msg

/-- The body of `publishPost`'s try block up to the `serviceResult.success`
check, at attempt index `retryCount`: resolve the account, dispatch on the
platform, run the adapter.  `behavior` is the adapter oracle indexed by
attempt. -/
def attemptPublish (behavior : Nat → AdapterOutcome) (db : DB) (post : Post)
    (retryCount : Nat) : Except String String :=
  match findSelectedAccount db post with
  | none => .error ("No active " ++ post.platform.name ++ " account found for this user/agent")
  | some _account =>
    match post.platform with
    | .linkedin => adapterResult (behavior retryCount)
    | .facebook => adapterResult (behavior retryCount)
    | .instagram =>
      match post.mediaUrl with
      | none => .error "Instagram posts require an image"
      | some _ => adapterResult (behavior retryCount)
    | .twitter => .error ("Platform " ++ Platform.name .twitter ++ " not yet supported for real posting")

/-- The `PostingResult` record returned by `publishPost`. -/
structure PostingResult where
  success : Bool
  postId : Option Nat
  platform : Platform
  message : String
  error : Option String
deriving DecidableEq

/-- A finished `publishPost` call: the database after its writes, the
returned result, and the list of `setTimeout` delays (milliseconds) taken
on the retry path, in order. -/
structure PublishOutcome where
  db : DB
  result : PostingResult
  sleeps : List Nat

/-- The success-path update: `status = published`, `publishedAt = now`,
`externalPostId = serviceResult.id` on the rows with the given id. -/
def DB.updatePostPublished (db : DB) (postId : Nat) (now : Nat) (externalId : String) : DB :=
  { db with posts := db.posts.map fun p =>
      if p.id = postId then
        { p with status := .published, publishedAt := some now, externalPostId := some externalId }
      else p }

/-- The exhaustion-path update: `status = failed` only. -/
def DB.updatePostFailed (db : DB) (postId : Nat) : DB :=
  { db with posts := db.posts.map fun p =>
      if p.id = postId then { p with status := .failed } else p }

/-- `db.insert(postingLogs).values(entry)`. -/
def DB.insertLog (db : DB) (entry : PostingLog) : DB :=
  { db with logs := db.logs ++ [entry] }

/-- `publishPost(userId, postId, retryCount)` with an explicit structural
fuel.  The fuel exists only to express the recursion structurally: the
recursion is guarded by `retryCount < 2` and increments `retryCount`, so
at most three nested calls happen and the entry point's fuel of 3 makes
the fuel-exhaustion branch unreachable.  `clock k` is the `new Date()`
reading of the attempt with index `k` (the failed-log `attemptedAt`, a
second `Date` call moments later in the source, is identified with the
final attempt's reading). -/
def publishPostFuel (behavior : Nat → AdapterOutcome) (clock : Nat → Nat) :
    Nat → DB → Nat → Nat → Nat → Except String PublishOutcome
  | 0, _, _, _, _ => .error "publish fuel exhausted"
  | fuel + 1, db, userId, postId, retryCount =>
    match db.findPost postId with
    | none => .error "Post not found or unauthorized"
    | some post =>
      if post.userId ≠ userId then .error "Post not found or unauthorized"
      else
        let now := clock retryCount
        match attemptPublish behavior db post retryCount with
        | .ok externalId =>
          let dbAfter := (db.updatePostPublished postId now externalId).insertLog
            { userId := userId, postId := postId, platform := post.platform,
              status := .success, platformPostId := some externalId,
              errorMessage := "Published to " ++ post.platform.name, attemptedAt := now }
          .ok { db := dbAfter,
                result := { success := true, postId := some postId, platform := post.platform,
                            message := "Successfully published to " ++ post.platform.name,
                            error := none },
                sleeps := [] }
        | .error errorMessage =>
          if retryCount < 2 then
            match publishPostFuel behavior clock fuel db userId postId (retryCount + 1) with
            | .ok outcome => .ok { outcome with sleeps := 5000 :: outcome.sleeps }
            | .error e => .error e
          else
            let dbAfter := (db.updatePostFailed postId).insertLog
              { userId := userId, postId := postId, platform := post.platform,
                status := .failed, platformPostId := none,
                errorMessage := errorMessage, attemptedAt := clock retryCount }
            .ok { db := dbAfter,
                  result := { success := false, postId := none, platform := post.platform,
                              message := "Failed to publish post: " ++ errorMessage,
                              error := some errorMessage },
                  sleeps := [] }

/-- `publishPost(userId, postId, retryCount = 0)`: the dispatcher's publish
operation.  Fuel 3 covers the at most `3 - retryCount` nested attempts. -/
def publishPost (behavior : Nat → AdapterOutcome) (clock : Nat → Nat)
    (db : DB) (userId postId : Nat) (retryCount : Nat := 0) : Except String PublishOutcome :=
  publishPostFuel behavior clock 3 db userId postId retryCount

/-- The platform dispatch of `publishPost` actually reaches the adapter
call: the post targets LinkedIn or Facebook, or Instagram with a media
URL present. -/
def adapterReached (post : Post) : Prop :=
  post.platform = .linkedin ∨ post.platform = .facebook ∨
    (post.platform = .instagram ∧ post.mediaUrl.isSome)

/-- Projection: the retry sleeps recorded by a finished publish call. -/
def sleepsTaken : Except String PublishOutcome → Option (List Nat)
  | .ok o => some o.sleeps
  | .error _ => none

/-- Projection: the stored status of the given post after a publish call. -/
def statusAfterPublish (postId : Nat) : Except String PublishOutcome → Option PostStatus
  | .ok o => (o.db.findPost postId).map Post.status
  | .error _ => none

/-- A scheduled LinkedIn draft owned by user 1, used by the concrete
instantiations below. -/
def examplePost : Post :=
  { id := 1, userId := 1, platform := .linkedin, title := "T", content := "hello",
    agentId := none, hashtags := none, status := .scheduled, mediaUrl := none,
    externalPostId := none, scheduledAt := some 10, publishedAt := none }

/-- An active LinkedIn account owned by user 1. -/
def exampleAccount : Account :=
  { id := 7, userId := 1, platform := .linkedin, accountName := "Main", accessToken := "tok",
    refreshToken := none, accountId := "ext-7", isActive := true }

def dbEmpty : DB := { posts := [], accounts := [], agentConfigs := [], logs := [] }

/-- The draft exists but no account at all is stored. -/
def dbNoAccount : DB := { posts := [examplePost], accounts := [], agentConfigs := [], logs := [] }

/-- The draft exists and an active matching account is stored. -/
def dbWithAccount : DB :=
  { posts := [examplePost], accounts := [exampleAccount], agentConfigs := [], logs := [] }

/-- The example draft already in terminal `failed` status. -/
def failedPost : Post := { examplePost with status := .failed }

def dbFailedPost : DB :=
  { posts := [failedPost], accounts := [exampleAccount], agentConfigs := [], logs := [] }

/-- An inactive account that an agent configuration still selects. -/
def inactiveAccount : Account :=
  { id := 5, userId := 1, platform := .linkedin, accountName := "Old", accessToken := "tok5",
    refreshToken := none, accountId := "ext-5", isActive := false }

/-- Agent configuration selecting the inactive account 5 for LinkedIn. -/
def exampleConfig : AgentConfig :=
  { id := 3, userId := 1, isActive := true, selectedAccounts := some [(Platform.linkedin, 5)] }

/-- The example draft, owned by agent configuration 3. -/
def agentPost : Post := { examplePost with agentId := some 3 }

def dbInactiveSelected : DB :=
  { posts := [agentPost], accounts := [inactiveAccount, exampleAccount],
    agentConfigs := [exampleConfig], logs := [] }

/-- An active account owned by a different user (user 2). -/
def crossAccount : Account :=
  { id := 9, userId := 2, platform := .linkedin, accountName := "Other", accessToken := "tok9",
    refreshToken := none, accountId := "ext-9", isActive := true }

/-- User 1's agent configuration selecting user 2's account 9. -/
def crossConfig : AgentConfig :=
  { id := 4, userId := 1, isActive := true, selectedAccounts := some [(Platform.linkedin, 9)] }

/-- The example draft, owned by agent configuration 4. -/
def crossPost : Post := { examplePost with agentId := some 4 }

def dbCrossUser : DB :=
  { posts := [crossPost], accounts := [crossAccount], agentConfigs := [crossConfig], logs := [] }

theorem attemptPublish_of_no_account (behavior : Nat → AdapterOutcome) {db : DB} {post : Post}
    (h : findSelectedAccount db post = none) (j : Nat) :
    attemptPublish behavior db post j =
      .error ("No active " ++ post.platform.name ++ " account found for this user/agent") := by
  unfold attemptPublish
  rw [h]

theorem attemptPublish_of_adapter (behavior : Nat → AdapterOutcome) {db : DB} {post : Post}
    {account : Account} (hacct : findSelectedAccount db post = some account)
    (hreach : adapterReached post) (j : Nat) :
    attemptPublish behavior db post j = adapterResult (behavior j) := by
  unfold attemptPublish
  rw [hacct]
  rcases hreach with h | h | ⟨h, hm⟩
  · rw [h]
  · rw [h]
  · rw [h]
    cases hu : post.mediaUrl with
    | none => rw [hu] at hm; simp at hm
    | some u => simp

/-- The head of a filtered list is its first match. -/
theorem head?_filter_eq_find? (l : List α) (q : α → Bool) :
    (l.filter q).head? = l.find? q := by
  induction l with
  | nil => rfl
  | cons a l ih =>
    cases h : q a <;> simp [List.filter_cons, List.find?_cons, h, ih]

/-- Finding by id commutes with an id-preserving pointwise update. -/
theorem find?_map_update (l : List Post) (postId : Nat) (f : Post → Post)
    (hid : ∀ p, (f p).id = p.id) :
    ((l.map fun p => if p.id = postId then f p else p).find? fun p => p.id == postId) =
      (l.find? fun p => p.id == postId).map f := by
  induction l with
  | nil => rfl
  | cons p l ih =>
    by_cases h : p.id = postId
    · simp [List.find?_cons, h, hid]
    · simp [List.find?_cons, h, ih]

theorem findPost_updatePostPublished (db : DB) (postId now : Nat) (externalId : String) :
    (db.updatePostPublished postId now externalId).findPost postId =
      (db.findPost postId).map fun p =>
        { p with status := .published, publishedAt := some now,
                 externalPostId := some externalId } := by
  unfold DB.updatePostPublished DB.findPost
  simp only [head?_filter_eq_find?]
  exact find?_map_update db.posts postId _ fun p => rfl

theorem findPost_updatePostFailed (db : DB) (postId : Nat) :
    (db.updatePostFailed postId).findPost postId =
      (db.findPost postId).map fun p => { p with status := .failed } := by
  unfold DB.updatePostFailed DB.findPost
  simp only [head?_filter_eq_find?]
  exact find?_map_update db.posts postId _ fun p => rfl

theorem findPost_insertLog (db : DB) (entry : PostingLog) (postId : Nat) :
    (db.insertLog entry).findPost postId = db.findPost postId := rfl

theorem logs_insertLog (db : DB) (entry : PostingLog) :
    (db.insertLog entry).logs = db.logs ++ [entry] := rfl

theorem logs_updatePostPublished (db : DB) (postId now : Nat) (externalId : String) :
    (db.updatePostPublished postId now externalId).logs = db.logs := rfl

theorem logs_updatePostFailed (db : DB) (postId : Nat) :
    (db.updatePostFailed postId).logs = db.logs := rfl

/-- An account produced by the step-1 query is active (the query filters
on `isActive = true`). -/
theorem isActive_of_findActiveAccountById {db : DB} {i : Nat} {a : Account}
    (h : db.findActiveAccountById i = some a) : a.isActive = true := by
  unfold DB.findActiveAccountById at h
  cases e : db.accounts.filter (fun x => x.id == i && x.isActive) with
  | nil => rw [e] at h; exact absurd h (by simp)
  | cons b t =>
    rw [e] at h
    have hb : b = a := by simpa using h
    have hmem : b ∈ db.accounts.filter (fun x => x.id == i && x.isActive) := by
      rw [e]; exact List.mem_cons_self b t
    have hpred := (List.mem_filter.mp hmem).2
    rw [hb] at hpred
    simpa using (Bool.and_elim_right hpred)

/-- An account produced by the step-2 fallback query is active. -/
theorem isActive_of_firstActiveAccount {db : DB} {u : Nat} {pf : Platform} {a : Account}
    (h : db.firstActiveAccount u pf = some a) : a.isActive = true := by
  unfold DB.firstActiveAccount at h
  cases e : db.accounts.filter (fun x => x.userId == u && x.platform == pf && x.isActive) with
  | nil => rw [e] at h; exact absurd h (by simp)
  | cons b t =>
    rw [e] at h
    have hb : b = a := by simpa using h
    have hmem : b ∈ db.accounts.filter (fun x => x.userId == u && x.platform == pf && x.isActive) := by
      rw [e]; exact List.mem_cons_self b t
    have hpred := (List.mem_filter.mp hmem).2
    rw [hb] at hpred
    simpa using (Bool.and_elim_right hpred)

/-- Under a complete agent-configuration chain, step 1 reduces to the
id-and-active account query. -/
theorem selectedAccountStep1_eq {db : DB} {post : Post} {agentId : Nat}
    {config : AgentConfig} {mappings : List (Platform × Nat)} {selId : Nat}
    (h1 : post.agentId = some agentId)
    (h2 : db.findAgentConfig agentId = some config)
    (h3 : config.selectedAccounts = some mappings)
    (h4 : lookupSelected mappings post.platform = some selId)
    (h5 : selId ≠ 0) :
    selectedAccountStep1 db post = db.findActiveAccountById selId := by
  unfold selectedAccountStep1
  simp only [h1, h2, h3, h4, if_neg h5]

/-- A `publishPost` run whose attempts fail strictly before index `k` and
succeed at `k` ends on the success path of attempt `k`, with one 5-second
sleep per failed attempt. -/
theorem publishPostFuel_eq_of_first_ok (behavior : Nat → AdapterOutcome) (clock : Nat → Nat)
    (db : DB) (userId postId : Nat) (post : Post) (k : Nat) (externalId : String)
    (hpost : db.findPost postId = some post) (hown : post.userId = userId)
    (hk2 : k ≤ 2)
    (hsucc : attemptPublish behavior db post k = .ok externalId) :
    ∀ fuel r, r ≤ k → k - r < fuel →
      (∀ j, r ≤ j → j < k → ∃ m, attemptPublish behavior db post j = .error m) →
      publishPostFuel behavior clock fuel db userId postId r = .ok
        { db := (db.updatePostPublished postId (clock k) externalId).insertLog
            { userId := userId, postId := postId, platform := post.platform,
              status := .success, platformPostId := some externalId,
              errorMessage := "Published to " ++ post.platform.name, attemptedAt := clock k },
          result := { success := true, postId := some postId, platform := post.platform,
                      message := "Successfully published to " ++ post.platform.name,
                      error := none },
          sleeps := List.replicate (k - r) 5000 } := by
  intro fuel
  induction fuel with
  | zero => intro r _ hlt _; omega
  | succ f ih =>
    intro r hrk hfuel hfail
    simp only [publishPostFuel]
    rw [hpost]
    dsimp only
    rw [if_neg (by simp [hown])]
    by_cases hr : r = k
    · subst hr
      rw [hsucc]
      simp
    · have hrltk : r < k := lt_of_le_of_ne hrk hr
      obtain ⟨m, hm⟩ := hfail r le_rfl hrltk
      rw [hm]
      dsimp only
      rw [if_pos (show r < 2 by omega)]
      rw [ih (r + 1) (by omega) (by omega) fun j hj1 hj2 => hfail j (by omega) hj2]
      have hrep : k - r = (k - (r + 1)) + 1 := by omega
      simp [hrep, List.replicate_succ]

/-- A `publishPost` run all of whose attempts fail ends on the exhaustion
path of attempt 2: the draft is marked failed, one failed log entry is
appended carrying the final attempt's error, and a failure result is
returned (not an exception), after one 5-second sleep per retry. -/
theorem publishPostFuel_eq_of_all_err (behavior : Nat → AdapterOutcome) (clock : Nat → Nat)
    (db : DB) (userId postId : Nat) (post : Post) (m : Nat → String)
    (hpost : db.findPost postId = some post) (hown : post.userId = userId) :
    ∀ fuel r, r ≤ 2 → 2 - r < fuel →
      (∀ j, r ≤ j → j ≤ 2 → attemptPublish behavior db post j = .error (m j)) →
      publishPostFuel behavior clock fuel db userId postId r = .ok
        { db := (db.updatePostFailed postId).insertLog
            { userId := userId, postId := postId, platform := post.platform,
              status := .failed, platformPostId := none,
              errorMessage := m 2, attemptedAt := clock 2 },
          result := { success := false, postId := none, platform := post.platform,
                      message := "Failed to publish post: " ++ m 2, error := some (m 2) },
          sleeps := List.replicate (2 - r) 5000 } := by
  intro fuel
  induction fuel with
  | zero => intro r _ hlt _; omega
  | succ f ih =>
    intro r hr2 hfuel hfail
    simp only [publishPostFuel]
    rw [hpost]
    dsimp only
    rw [if_neg (by simp [hown])]
    by_cases hr : r = 2
    · subst hr
      rw [hfail 2 le_rfl le_rfl]
      dsimp only
      rw [if_neg (show ¬ 2 < 2 by omega)]
      simp
    · have hrlt : r < 2 := lt_of_le_of_ne hr2 hr
      rw [hfail r le_rfl hr2]
      dsimp only
      rw [if_pos hrlt]
      rw [ih (r + 1) (by omega) (by omega) fun j hj1 hj2 => hfail j (by omega) hj2]
      have hrep : 2 - r = (2 - (r + 1)) + 1 := by omega
      simp [hrep, List.replicate_succ]

/-- Membership in the due-post query, unfolded. -/
theorem mem_findDuePosts {db : DB} {now : Nat} {p : Post} :
    p ∈ findDuePosts db now ↔
      p ∈ db.posts ∧ p.status = .scheduled ∧ ∃ t, p.scheduledAt = some t ∧ t ≤ now := by
  unfold findDuePosts
  rw [List.mem_filter]
  cases h : p.scheduledAt with
  | none => simp [scheduledAtLte, h]
  | some t => simp [scheduledAtLte, h, and_assoc]

/-- Claim C9: for every stored set of drafts and every time `now`, the
due-post query selects exactly the drafts with status `scheduled` and a
scheduled time that is set and at most `now`; drafts with another status,
a later scheduled time, or no scheduled time are never selected. -/
theorem findDuePosts_exact (db : DB) (now : Nat) (p : Post) :
    p ∈ findDuePosts db now ↔
      p ∈ db.posts ∧ p.status = PostStatus.scheduled ∧
        ∃ t, p.scheduledAt = some t ∧ t ≤ now :=
  mem_findDuePosts

/-- Claim C8: a publish call on a draft id that does not resolve to a draft
owned by the caller (absent row, or a row with a different `userId`) throws
`Post not found or unauthorized` immediately, at any retry count: no retry
happens, and the thrown error means no draft update and no log insert were
performed (the throw precedes the try block). -/
theorem publish_unowned_post_errors (behavior : Nat → AdapterOutcome) (clock : Nat → Nat)
    (db : DB) (userId postId retryCount : Nat)
    (hno : ∀ post, db.findPost postId = some post → post.userId ≠ userId) :
    publishPost behavior clock db userId postId retryCount =
      .error "Post not found or unauthorized" := by
  show publishPostFuel behavior clock (2 + 1) db userId postId retryCount = _
  simp only [publishPostFuel]
  cases e : db.findPost postId with
  | none => rfl
  | some post =>
    dsimp only
    rw [if_pos (hno post e)]

/-- Witness for C8: publishing draft 1 against an empty database throws. -/
theorem publish_unowned_post_errors_witness :
    publishPost (fun _ => AdapterOutcome.ok "x") (fun k => k) dbEmpty 1 1 0 =
      .error "Post not found or unauthorized" :=
  publish_unowned_post_errors _ _ _ 1 1 0 fun _post h => nomatch h

/-- Claim C5: the tie-break rule of account resolution.  Whenever the
draft's agent configuration chain selects an account id: (1) any account
resolution returns is active, so an inactive selected account is never
returned; (2) if the id-and-active lookup finds an account it is returned;
(3) if it finds nothing (id unknown or account inactive), resolution falls
through to the first active account matching the draft's user and
platform — in particular, when that fallback also finds nothing,
resolution fails with `none`. -/
theorem account_resolution_tie_break (db : DB) (post : Post) (agentId : Nat)
    (config : AgentConfig) (mappings : List (Platform × Nat)) (selId : Nat)
    (h1 : post.agentId = some agentId)
    (h2 : db.findAgentConfig agentId = some config)
    (h3 : config.selectedAccounts = some mappings)
    (h4 : lookupSelected mappings post.platform = some selId)
    (h5 : selId ≠ 0) :
    (∀ a, findSelectedAccount db post = some a → a.isActive = true) ∧
    (∀ a, db.findActiveAccountById selId = some a → findSelectedAccount db post = some a) ∧
    (db.findActiveAccountById selId = none →
      findSelectedAccount db post = db.firstActiveAccount post.userId post.platform) := by
  have hstep := selectedAccountStep1_eq h1 h2 h3 h4 h5
  refine ⟨?_, ?_, ?_⟩
  · intro a ha
    unfold findSelectedAccount at ha
    cases e : selectedAccountStep1 db post with
    | some b =>
      rw [e] at ha
      have hb : b = a := by simpa using ha
      rw [hstep] at e
      exact hb ▸ isActive_of_findActiveAccountById e
    | none =>
      rw [e] at ha
      exact isActive_of_firstActiveAccount ha
  · intro a ha
    unfold findSelectedAccount
    rw [hstep, ha]
  · intro hnone
    unfold findSelectedAccount
    rw [hstep, hnone]

/-- Witness for C5: agent configuration 3 selects the inactive account 5,
so resolution falls through to the first active (user, platform)
account. -/
theorem account_resolution_tie_break_witness :
    findSelectedAccount dbInactiveSelected agentPost =
      dbInactiveSelected.firstActiveAccount agentPost.userId agentPost.platform :=
  (account_resolution_tie_break dbInactiveSelected agentPost 3 exampleConfig
    [(Platform.linkedin, 5)] 5 rfl rfl rfl rfl (by decide)).2.2 rfl

/-- Claim C10: the selected-account lookup filters only on the account id
and the active flag, never on ownership, so when an agent configuration
maps the draft's platform to an active account of a different user, that
cross-user account is what resolution returns. -/
theorem selected_account_ignores_ownership (db : DB) (post : Post) (agentId : Nat)
    (config : AgentConfig) (mappings : List (Platform × Nat)) (selId : Nat) (a : Account)
    (h1 : post.agentId = some agentId)
    (h2 : db.findAgentConfig agentId = some config)
    (h3 : config.selectedAccounts = some mappings)
    (h4 : lookupSelected mappings post.platform = some selId)
    (h5 : selId ≠ 0)
    (hfound : db.findActiveAccountById selId = some a)
    (hcross : a.userId ≠ post.userId) :
    findSelectedAccount db post = some a ∧ a.userId ≠ post.userId := by
  refine ⟨?_, hcross⟩
  unfold findSelectedAccount
  rw [selectedAccountStep1_eq h1 h2 h3 h4 h5, hfound]

/-- Witness for C10: user 1's agent configuration 4 selects user 2's
active account 9, and resolution returns it. -/
theorem selected_account_ignores_ownership_witness :
    findSelectedAccount dbCrossUser crossPost = some crossAccount ∧
    crossAccount.userId ≠ crossPost.userId :=
  selected_account_ignores_ownership dbCrossUser crossPost 4 crossConfig
    [(Platform.linkedin, 9)] 9 crossAccount rfl rfl rfl rfl (by decide) rfl (by decide)

/-- Claim C6: for Instagram, the space-joined hashtags are appended to the
body (after a blank line) before truncation; a caption exceeding 2200 code
units becomes exactly its first 2197 units plus the 3-unit ellipsis marker
(total exactly 2200), and a caption of at most 2200 units is left
unchanged. -/
theorem instagram_caption_truncation :
    (∀ (content : Text) (hs : List Text) (i : Option Text), 0 < hs.length →
      instagramCaptionRaw { content := content, hashtags := some hs, imageUrl := i } =
        content ++ newline2 ++ joinSpace hs) ∧
    (∀ request : InstagramPostRequest, 2200 < (instagramCaptionRaw request).length →
      formatInstagramCaption request = (instagramCaptionRaw request).take 2197 ++ ellipsis ∧
      (formatInstagramCaption request).length = 2200) ∧
    (∀ request : InstagramPostRequest, (instagramCaptionRaw request).length ≤ 2200 →
      formatInstagramCaption request = instagramCaptionRaw request) := by
  refine ⟨?_, ?_, ?_⟩
  · intro content hs i h
    unfold instagramCaptionRaw
    simp [h]
  · intro request h
    have he : formatInstagramCaption request = (instagramCaptionRaw request).take 2197 ++ ellipsis := by
      unfold formatInstagramCaption
      rw [if_pos h]
    refine ⟨he, ?_⟩
    rw [he, List.length_append, List.length_take]
    have hmin : min 2197 (instagramCaptionRaw request).length = 2197 := by omega
    rw [hmin]
    rfl
  · intro request h
    unfold formatInstagramCaption
    rw [if_neg (by omega)]

/-- Witness for C6: a 2300-character body with one hashtag truncates to
exactly 2200 characters; a short body is unchanged. -/
theorem instagram_caption_truncation_witness :
    (formatInstagramCaption
      { content := List.replicate 2300 'a', hashtags := some [['#', 'x']] }).length = 2200 ∧
    formatInstagramCaption { content := ['h', 'i'] } = ['h', 'i'] := by
  constructor
  · refine (instagram_caption_truncation.2.1 _ ?_).2
    rw [instagram_caption_truncation.1 (List.replicate 2300 'a') [['#', 'x']] none (by decide)]
    rw [List.length_append, List.length_append, List.length_replicate]
    decide
  · exact instagram_caption_truncation.2.2 _ (by decide)

/-- Claim C7, counterexample: a 3001-character LinkedIn body passes through
`formatLinkedInPost` unchanged — its length stays 3001, above the claimed
3000-character cap, and no ellipsis is appended. -/
theorem linkedin_truncation_counterexample :
    formatLinkedInPost { content := List.replicate 3001 'x' } = List.replicate 3001 'x' ∧
    3000 < (formatLinkedInPost { content := List.replicate 3001 'x' }).length := by
  have he : formatLinkedInPost { content := List.replicate 3001 'x' } =
      List.replicate 3001 'x' := rfl
  refine ⟨he, ?_⟩
  rw [he, List.length_replicate]
  omega

/-- Claim C7 (amended): no truncation is applied to LinkedIn text at this
layer: the commentary sent to LinkedIn is the title block, the body and
the hashtag block concatenated unchanged, so its length is always the full
sum of the parts and can exceed 3000 characters (the 3000 figure exists in
the repository only as a content-generator prompt guideline). -/
theorem linkedin_format_never_truncates (request : LinkedInPostRequest) :
    (formatLinkedInPost request).length =
      (match request.title with
       | some t => t.length + 2
       | none => 0) +
      request.content.length +
      (match request.hashtags with
       | some hs => if 0 < hs.length then 2 + (joinSpace hs).length else 0
       | none => 0) := by
  unfold formatLinkedInPost
  cases request.title with
  | none =>
    cases request.hashtags with
    | none => simp
    | some hs =>
      dsimp only
      by_cases h : 0 < hs.length
      · rw [if_pos h, if_pos h]
        simp [newline2, List.length_append]
        omega
      · rw [if_neg h, if_neg h]
        simp
  | some t =>
    cases request.hashtags with
    | none =>
      simp [newline2, List.length_append]
      omega
    | some hs =>
      dsimp only
      by_cases h : 0 < hs.length
      · rw [if_pos h, if_pos h]
        simp [newline2, List.length_append]
        omega
      · rw [if_neg h, if_neg h]
        simp [newline2, List.length_append]
        omega

/-- Claim C1, counterexample: with draft 1 present and owned by the caller
but no account stored at all (resolution yields `NoAccount`), the publish
call still takes the 5-second retry path twice — sleeps `[5000, 5000]` are
recorded — because the no-account error is raised inside the try block and
caught by the generic retry handler; it is not surfaced immediately. -/
theorem publish_no_account_retry_counterexample :
    sleepsTaken (publishPost (fun _ => AdapterOutcome.ok "x") (fun k => k) dbNoAccount 1 1 0) =
      some [5000, 5000] := rfl

/-- Claim C1 (amended): a publish invocation for which account resolution
finds no usable account is retried like any transient failure: the
no-account error is thrown inside the try block, so while
`retryCount < 2` the call sleeps 5 seconds and recurses; after exhaustion
the draft is set to `failed` and one `failed` log entry carrying the
no-account message is appended, and a failure result (not an exception) is
returned. -/
theorem publish_no_account_is_retried (behavior : Nat → AdapterOutcome) (clock : Nat → Nat)
    (db : DB) (userId postId retryCount : Nat) (post : Post)
    (hpost : db.findPost postId = some post) (hown : post.userId = userId)
    (hr : retryCount ≤ 2)
    (hnoacct : findSelectedAccount db post = none) :
    publishPost behavior clock db userId postId retryCount = .ok
      { db := (db.updatePostFailed postId).insertLog
          { userId := userId, postId := postId, platform := post.platform,
            status := .failed, platformPostId := none,
            errorMessage := "No active " ++ post.platform.name ++ " account found for this user/agent",
            attemptedAt := clock 2 },
        result := { success := false, postId := none, platform := post.platform,
                    message := "Failed to publish post: " ++
                      ("No active " ++ post.platform.name ++ " account found for this user/agent"),
                    error := some ("No active " ++ post.platform.name ++ " account found for this user/agent") },
        sleeps := List.replicate (2 - retryCount) 5000 } :=
  publishPostFuel_eq_of_all_err behavior clock db userId postId post
    (fun _ => "No active " ++ post.platform.name ++ " account found for this user/agent")
    hpost hown 3 retryCount hr (by omega)
    (fun j _ _ => attemptPublish_of_no_account behavior hnoacct j)

/-- Witness for the amended C1 at the concrete no-account database. -/
theorem publish_no_account_is_retried_witness :
    publishPost (fun _ => AdapterOutcome.ok "x") (fun k => k) dbNoAccount 1 1 0 = .ok
      { db := (dbNoAccount.updatePostFailed 1).insertLog
          { userId := 1, postId := 1, platform := Platform.linkedin,
            status := .failed, platformPostId := none,
            errorMessage := "No active linkedin account found for this user/agent",
            attemptedAt := 2 },
        result := { success := false, postId := none, platform := Platform.linkedin,
                    message := "Failed to publish post: No active linkedin account found for this user/agent",
                    error := some "No active linkedin account found for this user/agent" },
        sleeps := [5000, 5000] } :=
  publish_no_account_is_retried (fun _ => AdapterOutcome.ok "x") (fun k => k)
    dbNoAccount 1 1 0 examplePost rfl rfl (by omega) rfl

/-- Claim C2: when the adapter call fails on every attempt (account
resolution succeeds and the adapter is actually reached), the invocation
retries while `retryCount < 2` with a fixed 5000 ms sleep per retry
(`2 - retryCount` retries, so 3 total attempts from 0), then sets the
draft's status to `failed`, appends exactly one `failed` log entry
carrying the final attempt's error detail (no intermediate-attempt
entries), and returns a failure result instead of raising. -/
theorem publish_adapter_failure_exhausts_retries (behavior : Nat → AdapterOutcome)
    (clock : Nat → Nat) (db : DB) (userId postId retryCount : Nat) (post : Post)
    (account : Account) (m : Nat → String)
    (hpost : db.findPost postId = some post) (hown : post.userId = userId)
    (hr : retryCount ≤ 2)
    (hacct : findSelectedAccount db post = some account)
    (hreach : adapterReached post)
    (hbeh : ∀ j, behavior j = AdapterOutcome.err (m j)) :
    publishPost behavior clock db userId postId retryCount = .ok
      { db := (db.updatePostFailed postId).insertLog
          { userId := userId, postId := postId, platform := post.platform,
            status := .failed, platformPostId := none,
            errorMessage := m 2, attemptedAt := clock 2 },
        result := { success := false, postId := none, platform := post.platform,
                    message := "Failed to publish post: " ++ m 2, error := some (m 2) },
        sleeps := List.replicate (2 - retryCount) 5000 } :=
  publishPostFuel_eq_of_all_err behavior clock db userId postId post m hpost hown
    3 retryCount hr (by omega)
    (fun j _ _ => by rw [attemptPublish_of_adapter behavior hacct hreach j, hbeh j]; rfl)

/-- Witness for C2: the adapter always fails with "boom"; from retry count
0 the draft ends `failed` with one failed log entry after two 5-second
sleeps. -/
theorem publish_adapter_failure_exhausts_retries_witness :
    publishPost (fun _ => AdapterOutcome.err "boom") (fun k => k) dbWithAccount 1 1 0 = .ok
      { db := (dbWithAccount.updatePostFailed 1).insertLog
          { userId := 1, postId := 1, platform := Platform.linkedin,
            status := .failed, platformPostId := none,
            errorMessage := "boom", attemptedAt := 2 },
        result := { success := false, postId := none, platform := Platform.linkedin,
                    message := "Failed to publish post: boom", error := some "boom" },
        sleeps := [5000, 5000] } :=
  publish_adapter_failure_exhausts_retries (fun _ => AdapterOutcome.err "boom") (fun k => k)
    dbWithAccount 1 1 0 examplePost exampleAccount (fun _ => "boom")
    rfl rfl (by omega) rfl (Or.inl rfl) (fun _ => rfl)

/-- Claim C3: when the adapter call succeeds at attempt `k` (possibly after
earlier failed attempts), the invocation sets the draft's status to
`published` with `publishedAt` the success attempt's time and the
external post id returned by the adapter, and appends exactly one
`success` log entry with the matching draft id — and no `failed` entry —
before returning a success result. -/
theorem publish_adapter_success_publishes (behavior : Nat → AdapterOutcome)
    (clock : Nat → Nat) (db : DB) (userId postId retryCount : Nat) (post : Post)
    (account : Account) (k : Nat) (externalId : String) (m : Nat → String)
    (hpost : db.findPost postId = some post) (hown : post.userId = userId)
    (hk1 : retryCount ≤ k) (hk2 : k ≤ 2)
    (hacct : findSelectedAccount db post = some account)
    (hreach : adapterReached post)
    (hbefore : ∀ j, retryCount ≤ j → j < k → behavior j = AdapterOutcome.err (m j))
    (hok : behavior k = AdapterOutcome.ok externalId) :
    publishPost behavior clock db userId postId retryCount = .ok
      { db := (db.updatePostPublished postId (clock k) externalId).insertLog
          { userId := userId, postId := postId, platform := post.platform,
            status := .success, platformPostId := some externalId,
            errorMessage := "Published to " ++ post.platform.name, attemptedAt := clock k },
        result := { success := true, postId := some postId, platform := post.platform,
                    message := "Successfully published to " ++ post.platform.name,
                    error := none },
        sleeps := List.replicate (k - retryCount) 5000 } :=
  publishPostFuel_eq_of_first_ok behavior clock db userId postId post k externalId
    hpost hown hk2
    (by rw [attemptPublish_of_adapter behavior hacct hreach k, hok]; rfl)
    3 retryCount hk1 (by omega)
    (fun j hj1 hj2 =>
      ⟨m j, by rw [attemptPublish_of_adapter behavior hacct hreach j, hbefore j hj1 hj2]; rfl⟩)

/-- Witness for C3: the adapter fails at attempts 0 and 1 and succeeds at
attempt 2; the draft ends `published` with exactly one success log entry
and two 5-second sleeps. -/
theorem publish_adapter_success_publishes_witness :
    publishPost (fun j => if j < 2 then AdapterOutcome.err "t" else AdapterOutcome.ok "ext-99")
        (fun k => k) dbWithAccount 1 1 0 = .ok
      { db := (dbWithAccount.updatePostPublished 1 2 "ext-99").insertLog
          { userId := 1, postId := 1, platform := Platform.linkedin,
            status := .success, platformPostId := some "ext-99",
            errorMessage := "Published to linkedin", attemptedAt := 2 },
        result := { success := true, postId := some 1, platform := Platform.linkedin,
                    message := "Successfully published to linkedin", error := none },
        sleeps := [5000, 5000] } :=
  publish_adapter_success_publishes
    (fun j => if j < 2 then AdapterOutcome.err "t" else AdapterOutcome.ok "ext-99")
    (fun k => k) dbWithAccount 1 1 0 examplePost exampleAccount 2 "ext-99" (fun _ => "t")
    rfl rfl (by omega) (by omega) rfl (Or.inl rfl)
    (fun j _ hj2 => by simp [hj2]) rfl

/-- Claim C4, counterexample: draft 1 of the concrete database is in
terminal status `failed`, yet a further publish call on it whose adapter
succeeds transitions it to `published`: `publishPost` performs no status
guard, so `published`/`failed` are not terminal under a direct publish
call. -/
theorem terminal_status_counterexample :
    dbFailedPost.findPost 1 = some failedPost ∧
    failedPost.status = PostStatus.failed ∧
    statusAfterPublish 1
        (publishPost (fun _ => AdapterOutcome.ok "e2") (fun _ => 0) dbFailedPost 1 1 0) =
      some PostStatus.published :=
  ⟨rfl, rfl, rfl⟩

/-- Claim C4 (amended): `published` and `failed` are terminal only with
respect to the scheduler sweep — the due-post query never selects a draft
in either status, so periodic dispatch performs no further transition on
them; `publishPost` itself checks no status, and a direct publish call on
such a draft can transition it again (see the counterexample). -/
theorem due_sweep_skips_terminal_posts (db : DB) (now : Nat) (p : Post)
    (hmem : p ∈ findDuePosts db now) :
    p.status ≠ PostStatus.published ∧ p.status ≠ PostStatus.failed := by
  have h := (mem_findDuePosts.mp hmem).2.1
  refine ⟨?_, ?_⟩ <;> rw [h] <;> decide

/-- Witness for the amended C4: the scheduled example draft is due at time
10 and is indeed in neither terminal status. -/
theorem due_sweep_skips_terminal_posts_witness :
    examplePost.status ≠ PostStatus.published ∧ examplePost.status ≠ PostStatus.failed :=
  due_sweep_skips_terminal_posts dbWithAccount 10 examplePost (by decide)

end Showcase
